import Mathlib

set_option autoImplicit false

/-!
Shallow embedding of the Avalara Excise tax plugin of this repository
(saleor/plugins/avatax/excise/__init__.py and .../excise/plugin.py):
the request builder, the HTTP-client boundary and the checkout-line
total calculation, together with theorems about them.

Conventions of the embedding:
* Python Decimal values are embedded as exact rationals (Rat); the
  source never performs any operation on them beyond addition, so this
  is faithful to exact decimal arithmetic.
* Ambient state read by the source (the current-site singleton, the
  wall-clock date, the imported _validate_checkout helper that lives
  outside the two embedded files) is passed as explicit parameters.
* Fallible Python code (attribute errors, key errors) is embedded with
  Except PyErr.
-/

-- Decidable equality of Except values, so that the embedded fallible
-- functions can be evaluated at concrete inputs.
deriving instance DecidableEq for Except

/-- Python-level runtime errors that the embedded code can raise. -/
inductive PyErr where
  | attributeError
  | keyError
  | nameError
  | schemaMappingFailure
  deriving DecidableEq, Repr

/-- A calendar date.  The source reads the wall clock via date.today();
here the current date is an explicit parameter of every function that
reads it. -/
structure Date where
  year : Nat
  month : Nat
  day : Nat
  deriving DecidableEq, Repr

/-- Zero-padding of a date component to two digits. -/
def pad2 (n : Nat) : String :=
  if n < 10 then "0" ++ toString n else toString n

/-- str() of a Python date: the ISO form YYYY-MM-DD. -/
def dateStr (d : Date) : String :=
  toString d.year ++ "-" ++ pad2 d.month ++ "-" ++ pad2 d.day

/-- prices.Money: an exact decimal amount plus a currency.  The currency
slot is an Option because the plugin builds Money objects from
taxes_data.get("currencyCode"), which may be absent (None). -/
structure Money where
  amount : Rat
  currency : Option String
  deriving DecidableEq, Repr

/-- prices.TaxedMoney. -/
structure TaxedMoney where
  net : Money
  gross : Money
  deriving DecidableEq, Repr

/-- prices.TaxedMoneyRange. -/
structure TaxedMoneyRange where
  start : TaxedMoney
  stop : TaxedMoney
  deriving DecidableEq, Repr

/-- The runtime type of the previous_value argument of _skip_plugin:
Union of TaxedMoney, TaxedMoneyRange and Decimal. -/
inductive PreviousValue where
  | taxedMoney (t : TaxedMoney)
  | taxedMoneyRange (r : TaxedMoneyRange)
  | decimal (d : Rat)
  deriving DecidableEq, Repr

/-- A checkout token (a UUID in the source); str is its canonical string
form, produced by Python str(). -/
structure CheckoutToken where
  str : String
  deriving DecidableEq, Repr

/-- A saleor address record (checkout.shipping_address or
checkout.billing_address).  The country field carries the ISO alpha-2
code. -/
structure Address where
  street_address_1 : String
  street_address_2 : String
  city : String
  country_area : String
  country : String
  postal_code : String
  deriving DecidableEq, Repr

/-- The dictionary produced by Address.as_data(), or the empty dict used
when no address is available; .get on a missing key yields none. -/
structure AddressData where
  street_address_1 : Option String
  street_address_2 : Option String
  city : Option String
  country_area : Option String
  country : Option String
  postal_code : Option String
  deriving DecidableEq, Repr

/-- Address.as_data(): every field present. -/
def Address.as_data (a : Address) : AddressData :=
  ⟨some a.street_address_1, some a.street_address_2, some a.city,
   some a.country_area, some a.country, some a.postal_code⟩

/-- The empty dict passed for the address when the checkout has neither
a shipping nor a billing address. -/
def emptyAddressData : AddressData :=
  ⟨none, none, none, none, none, none⟩

/-- The current-site settings the source reads through the
Site.objects.get_current() singleton, made an explicit parameter. -/
structure SiteSettings where
  company_address : Option Address
  include_taxes_in_prices : Bool
  deriving DecidableEq, Repr

/-- The product data used by the plugin: only the charge_taxes flag. -/
structure Product where
  charge_taxes : Bool
  deriving DecidableEq, Repr

/-- The per-channel listing of a variant, as resolved by the source's
line.variant.channel_listings.get(channel=channel) lookup. -/
structure ChannelListing where
  price : Rat
  cost_price : Option Rat
  deriving DecidableEq, Repr

/-- A product variant: its SKU, product and resolved channel listing. -/
structure ProductVariant where
  sku : String
  product : Product
  channel_listing : ChannelListing
  deriving DecidableEq, Repr

/-- A checkout line. -/
structure CheckoutLine where
  id : Nat
  quantity : Nat
  variant : ProductVariant
  deriving DecidableEq, Repr

/-- A checkout snapshot.  last_change is the last-modification
timestamp of the checkout; the embedded code never reads it, it is kept
in the snapshot because the specification talks about it. -/
structure Checkout where
  token : CheckoutToken
  currency : String
  email : String
  shipping_address : Option Address
  billing_address : Option Address
  lines : List CheckoutLine
  last_change : Date
  deriving DecidableEq, Repr

/-- saleor.discount.DiscountInfo; the embedded code threads the
discounts argument through but never reads it. -/
structure DiscountInfo where
  deriving DecidableEq, Repr

/-- Opaque collaborator types appearing in the signature of
calculate_checkout_line_total but unused by its body. -/
structure Collection where
  deriving DecidableEq, Repr

structure Channel where
  deriving DecidableEq, Repr

/-- Modelled from the spec: the ISO alpha-2 to alpha-3 country
conversion that the source reaches through
checkout.shipping_address.country.alpha3.  The address/country model is
repository code outside the two embedded files, so the conversion is
modelled from the specification's words: a fixed lookup table, total on
the supported countries, and a country with no mapping is a build-time
error (SchemaMappingFailure), not a silent default. -/
def alpha3Table : List (String × String) :=
  [("US", "USA"), ("CA", "CAN"), ("GB", "GBR"), ("DE", "DEU"),
   ("FR", "FRA"), ("PL", "POL"), ("IT", "ITA"), ("ES", "ESP")]

/-- The supported alpha-2 codes: the domain of the lookup table. -/
def supportedAlpha2 : List String :=
  alpha3Table.map Prod.fst

/-- Look up the alpha-3 code of an alpha-2 code; none when the code is
not covered by the table. -/
def alpha3 (code : String) : Option String :=
  (alpha3Table.find? (fun p => p.1 = code)).map Prod.snd

/-- The TransactionLine dataclass of excise/__init__.py (lines
171-184). -/
structure TransactionLine where
  InvoiceLine : Nat
  ProductCode : String
  UnitPrice : Rat
  BilledUnits : Rat
  AlternateUnitPrice : Option Rat
  TaxIncluded : Bool
  DestinationCountryCode : String
  DestinationJurisdiction : String
  DestinationAddress1 : Option String
  DestinationAddress2 : Option String
  deriving DecidableEq, Repr

/-- The loop body of get_checkout_lines_data (excise/__init__.py lines
198-218), one TransactionLine per already-filtered taxable line.
Accessing checkout.shipping_address.country on a missing (None)
shipping address raises AttributeError; an unmappable country code is
the spec-modelled SchemaMappingFailure (see alpha3).  The source also
binds a stock lookup result that it never uses; it is omitted here. -/
def buildTransactionLines (tax_included : Bool) (shipping_address : Option Address) :
    List CheckoutLine → Except PyErr (List TransactionLine)
  | [] => .ok []
  | l :: rest =>
    match shipping_address with
    | none => .error .attributeError
    | some a =>
      match alpha3 a.country with
      | none => .error .schemaMappingFailure
      | some code3 =>
        match buildTransactionLines tax_included shipping_address rest with
        | .error e => .error e
        | .ok tls =>
          .ok (⟨l.id, l.variant.sku, l.variant.channel_listing.price,
                (l.quantity : Rat), l.variant.channel_listing.cost_price,
                tax_included, code3, a.country_area,
                some a.street_address_1, some a.street_address_2⟩ :: tls)

/-- get_checkout_lines_data (excise/__init__.py lines 186-244): filter
the checkout lines down to those whose product charges taxes and build
one TransactionLine per remaining line.  The discounts argument is
accepted and ignored, as in the source. -/
def get_checkout_lines_data (site : SiteSettings) (checkout : Checkout)
    (discounts : List DiscountInfo) : Except PyErr (List TransactionLine) :=
  buildTransactionLines site.include_taxes_in_prices checkout.shipping_address
    (checkout.lines.filter (fun l => l.variant.product.charge_taxes))

/-- The AvataxConfiguration dataclass of excise/__init__.py (lines
30-36). -/
structure ExciseAvataxConfiguration where
  username_or_account : String
  password_or_license : String
  use_sandbox : Bool := true
  company_name : String := "DEFAULT"
  autocommit : Bool := false
  deriving DecidableEq, Repr

/-- The distinct AvataxConfiguration dataclass of excise/plugin.py
(lines 22-27); note it has no company_name and no autocommit field. -/
structure PluginAvataxConfiguration where
  username : Option String
  password : Option String
  use_sandbox : Bool := true
  company_id : Option String := none
  deriving DecidableEq, Repr

/-- The config argument of generate_request_data is dynamically typed:
depending on the caller it is an instance of either of the two
same-named dataclasses.  Attribute access on an instance missing the
attribute raises AttributeError, exactly as in Python. -/
inductive ConfigObj where
  | excise (c : ExciseAvataxConfiguration)
  | plugin (c : PluginAvataxConfiguration)
  deriving DecidableEq, Repr

/-- config.company_name: present only on the excise dataclass. -/
def ConfigObj.company_name : ConfigObj → Except PyErr String
  | .excise c => .ok c.company_name
  | .plugin _ => .error .attributeError

/-- config.autocommit: present only on the excise dataclass. -/
def ConfigObj.autocommit : ConfigObj → Except PyErr Bool
  | .excise c => .ok c.autocommit
  | .plugin _ => .error .attributeError

/-- One of the shipFrom/shipTo address dictionaries of the request
(excise/__init__.py lines 147-162); every value comes from a dict .get
and may be absent. -/
structure ShipAddress where
  line1 : Option String
  line2 : Option String
  city : Option String
  region : Option String
  country : Option String
  postalCode : Option String
  deriving DecidableEq, Repr

/-- Build a ShipAddress from an address dictionary, key for key as in
the source. -/
def shipAddressOf (d : AddressData) : ShipAddress :=
  ⟨d.street_address_1, d.street_address_2, d.city, d.country_area,
   d.country, d.postal_code⟩

/-- The addresses entry of the request. -/
structure RequestAddresses where
  shipFrom : ShipAddress
  shipTo : ShipAddress
  deriving DecidableEq, Repr

/-- The createTransactionModel dictionary literal of
generate_request_data (excise/__init__.py lines 138-167). -/
structure RequestData where
  companyCode : String
  type : String
  lines : List TransactionLine
  code : String
  date : String
  customerCode : Nat
  addresses : RequestAddresses
  commit : Bool
  currencyCode : String
  email : String
  deriving DecidableEq, Repr

/-- The value returned by generate_request_data: the request data under
the createTransactionModel key (excise/__init__.py line 168). -/
structure TransactionRequest where
  createTransactionModel : RequestData
  deriving DecidableEq, Repr

/-- The TransactionType.ORDER constant imported from the parent avatax
package (outside the embedded files); its exact string value is
irrelevant to every theorem below. -/
def TransactionType.ORDER : String := "ORDER"

/-- generate_request_data (excise/__init__.py lines 95-168).  The
current-site company address becomes the explicit site parameter and
the wall clock becomes the today parameter.  The source's first
assignment to data (the TransactionLines dict) is dead code,
immediately overwritten, and is omitted; the print call is a side
effect without influence on the result.  Building the dict literal
evaluates config.company_name and then config.autocommit, either of
which raises AttributeError when the config instance lacks it. -/
def generate_request_data (site : SiteSettings) (today : Date)
    (transaction_type : String) (lines : List TransactionLine)
    (transaction_token : String) (address : AddressData)
    (customer_email : String) (config : ConfigObj) (currency : String) :
    Except PyErr TransactionRequest :=
  let company_address := (site.company_address.map Address.as_data).getD emptyAddressData
  match config.company_name with
  | .error e => .error e
  | .ok companyCode =>
    match config.autocommit with
    | .error e => .error e
    | .ok commit =>
      .ok ⟨⟨companyCode, transaction_type, lines, transaction_token,
            dateStr today, 0,
            ⟨shipAddressOf company_address, shipAddressOf address⟩,
            commit, currency, customer_email⟩⟩

/-- generate_request_data_from_checkout (excise/__init__.py lines
247-268).  transaction_token or str(checkout.token) is Python
truthiness: None and the empty string both fall back to the token. -/
def generate_request_data_from_checkout (site : SiteSettings) (today : Date)
    (checkout : Checkout) (config : ConfigObj)
    (transaction_token : Option String) (transaction_type : String)
    (discounts : List DiscountInfo) : Except PyErr TransactionRequest :=
  let address := match checkout.shipping_address with
    | some a => some a
    | none => checkout.billing_address
  match get_checkout_lines_data site checkout discounts with
  | .error e => .error e
  | .ok lines =>
    let tok := match transaction_token with
      | some t => if t = "" then checkout.token.str else t
      | none => checkout.token.str
    generate_request_data site today transaction_type lines tok
      ((address.map Address.as_data).getD emptyAddressData)
      checkout.email config checkout.currency

/-- One entry of the lines list of a service response, as consumed by
plugin.py lines 143-149.  itemCode is read with .get (absent gives
None), tax with .get and default 0, lineAmount by indexing (absent
raises KeyError).  Amounts are exact decimals. -/
structure TaxLine where
  itemCode : Option String
  tax : Option Rat
  lineAmount : Option Rat
  deriving DecidableEq, Repr

/-- A JSON-object response dictionary, restricted to the keys the
embedded code inspects; other holds whether any further key is
present, so that Python dict truthiness (at least one key) is
expressible. -/
structure TaxesData where
  currencyCode : Option String
  lines : Option (List TaxLine)
  error : Option String
  other : Bool
  deriving DecidableEq, Repr

/-- Python truthiness of the response dictionary: at least one key. -/
def TaxesData.truthy (td : TaxesData) : Bool :=
  td.currencyCode.isSome || td.lines.isSome || td.error.isSome || td.other

/-- The empty dictionary. -/
def emptyDict : TaxesData :=
  ⟨none, none, none, false⟩

/-- get_checkout_tax_data (excise/__init__.py lines 271-275): builds
the request data and then ends; the body has no return statement, so on
success the function returns None. -/
def get_checkout_tax_data (site : SiteSettings) (today : Date)
    (checkout : Checkout) (discounts : List DiscountInfo)
    (config : ConfigObj) : Except PyErr (Option TaxesData) :=
  match generate_request_data_from_checkout site today checkout config
      none TransactionType.ORDER discounts with
  | .error e => .error e
  | .ok _data => .ok none

/-- A network call to the tax service, recorded in a trace so that "no
network call is made" is a provable statement.  The only POST that
could emit one sits inside api_post_request, behind the NameError on
the undefined TIMEOUT global, so no execution path ever records one. -/
structure ServiceCall where
  url : String
  deriving DecidableEq, Repr

/-- The outcome of one HTTP exchange, an input of the client boundary:
a requests-level transport failure (connection error, timeout), a body
that fails JSON decoding, or a decoded body. -/
inductive HttpOutcome (α : Type) where
  | requestException
  | jsonDecodeError
  | ok (body : α)
  deriving DecidableEq, Repr

/-- get_api_url (excise/__init__.py lines 39-43). -/
def get_api_url (use_sandbox : Bool) : String :=
  if use_sandbox then "https://excisesbx.avalara.com/api/v1/"
  else "https://excise.avalara.net/api/v1/"

/-- The module-level name TIMEOUT referenced by api_post_request
(excise/__init__.py line 52) and api_get_request (line 78): it is never
defined in the module and never imported, so evaluating it raises
NameError. -/
def TIMEOUT : Except PyErr Nat := .error .nameError

/-- api_post_request (excise/__init__.py lines 46-67).  Evaluating the
arguments of requests.post reads the undefined TIMEOUT global, which
raises NameError inside the try block; neither except clause
(RequestException, JSONDecodeError) catches a NameError, so it
propagates past the function's boundary and the POST is never
attempted.  The remaining branches embed the handler code that sits
behind that error: had the exchange happened, a transport failure or a
non-decodable body would be absorbed into the empty dict and a decoded
body returned (the source's "error" branch also returns json_response,
so both success branches return the same value). -/
def api_post_request {α : Type} (url : String) (data : α)
    (config : ExciseAvataxConfiguration) (outcome : HttpOutcome TaxesData) :
    Except PyErr TaxesData × List ServiceCall :=
  match TIMEOUT with
  | .error e => (.error e, [])
  | .ok _ =>
    match outcome with
    | .requestException => (.ok emptyDict, [⟨url⟩])
    | .jsonDecodeError => (.ok emptyDict, [⟨url⟩])
    | .ok body => (.ok body, [⟨url⟩])

/-- The response loop of calculate_checkout_line_total (plugin.py lines
143-149) together with the final fallback (line 151): scan the lines of
the response in order; the first line whose itemCode equals the
variant's SKU is applied, building net = lineAmount and
gross = lineAmount + tax in the response's currency; a matching line
without a lineAmount key raises KeyError; with no matching line the
base total is returned. -/
def applyResponseLines (currency : Option String) (sku : String)
    (base_total : TaxedMoney) : List TaxLine → Except PyErr TaxedMoney
  | [] => .ok base_total
  | l :: rest =>
    if l.itemCode = some sku then
      match l.lineAmount with
      | none => .error .keyError
      | some amt => .ok ⟨⟨amt, currency⟩, ⟨amt + l.tax.getD 0, currency⟩⟩
    else applyResponseLines currency sku base_total rest

/-- The taxes_data handling of calculate_checkout_line_total (plugin.py
lines 139-151), factored out: a falsy (None or empty) taxes_data or one
carrying an "error" key returns the base total; otherwise the response
lines are scanned with the response's currencyCode. -/
def handle_taxes_data (taxes_data : Option TaxesData) (sku : String)
    (base_total : TaxedMoney) : Except PyErr TaxedMoney :=
  match taxes_data with
  | none => .ok base_total
  | some td =>
    if !td.truthy || td.error.isSome then .ok base_total
    else applyResponseLines td.currencyCode sku base_total (td.lines.getD [])

/-- Python truthiness of an optional string: None and the empty string
are falsy. -/
def pyTruthy : Option String → Bool
  | none => false
  | some s => !s.isEmpty

/-- _skip_plugin (plugin.py lines 74-92).  Note that the only call site,
plugin.py lines 125-127, is commented out in the source. -/
def _skip_plugin (config : PluginAvataxConfiguration) (active : Bool)
    (previous_value : PreviousValue) : Bool :=
  if !(pyTruthy config.username && pyTruthy config.password) then true
  else if !active then true
  else
    match previous_value with
    | .taxedMoneyRange r =>
      decide (r.start.net ≠ r.start.gross) && decide (r.stop.net ≠ r.stop.gross)
    | .taxedMoney t => decide (t.net ≠ t.gross)
    | .decimal _ => false

/-- calculate_checkout_line_total (plugin.py lines 112-151).  The
validate parameter abstracts the _validate_checkout helper imported
from the parent avatax package (outside the embedded files).  The
_skip_plugin call of lines 125-127 is commented out in the source and
therefore absent here.  The config the plugin passes to
get_checkout_tax_data is its own PluginAvataxConfiguration instance.
The second component of the result is the trace of tax-service calls
made during the computation. -/
def calculate_checkout_line_total (site : SiteSettings) (today : Date)
    (validate : Checkout → List CheckoutLine → Bool)
    (self_config : PluginAvataxConfiguration)
    (checkout : Checkout) (checkout_line : CheckoutLine)
    (variant : ProductVariant) (product : Product)
    (collections : List Collection) (address : Option Address)
    (channel : Channel) (channel_listing : ChannelListing)
    (discounts : List DiscountInfo) (previous_value : TaxedMoney) :
    Except PyErr TaxedMoney × List ServiceCall :=
  let base_total := previous_value
  if !checkout_line.variant.product.charge_taxes then (.ok base_total, [])
  else if !validate checkout [checkout_line] then (.ok base_total, [])
  else
    match get_checkout_tax_data site today checkout discounts
        (ConfigObj.plugin self_config) with
    | .error e => (.error e, [])
    | .ok taxes_data => (handle_taxes_data taxes_data variant.sku base_total, [])

/-! ### Concrete sample data used by witnesses and counterexamples -/

/-- A destination address with a supported country code. -/
def sampleAddr : Address :=
  ⟨"1 Main St", "", "Springfield", "IL", "US", "62701"⟩

def sampleProduct : Product := ⟨true⟩

def sampleListing : ChannelListing := ⟨10, none⟩

def sampleVariant : ProductVariant := ⟨"ABC", sampleProduct, sampleListing⟩

def sampleLine : CheckoutLine := ⟨1, 1, sampleVariant⟩

/-- A checkout snapshot with one taxable line, shipping to sampleAddr,
last modified on 2020-01-01. -/
def sampleCheckout : Checkout :=
  ⟨⟨"8b2a1a07"⟩, "USD", "customer@example.com", some sampleAddr, none,
   [sampleLine], ⟨2020, 1, 1⟩⟩

def sampleSite : SiteSettings := ⟨none, true⟩

/-- A pre-quote value with net = gross (no tax applied yet). -/
def samplePrev : TaxedMoney := ⟨⟨10, some "USD"⟩, ⟨10, some "USD"⟩⟩

def samplePluginCfg : PluginAvataxConfiguration :=
  ⟨some "user", some "secret", true, some "42"⟩

def sampleExciseCfg : ExciseAvataxConfiguration :=
  ⟨"user", "secret", true, "DEFAULT", false⟩

def sampleChannel : Channel := ⟨⟩

/-- The transaction lines built from sampleCheckout. -/
def sampleLinesOut : List TransactionLine :=
  [⟨1, "ABC", 10, 1, none, true, "USA", "IL", some "1 Main St", some ""⟩]

/-- The spec's scenario response: currency USD, one line with itemCode
ABC, lineAmount 10.00 and tax 1.00. -/
def scenarioResponse : TaxesData :=
  ⟨some "USD", some [⟨some "ABC", some 1, some 10⟩], none, false⟩

/-- A response whose only line does not match the SKU ABC. -/
def noMatchResponse : TaxesData :=
  ⟨some "USD", some [⟨some "XYZ", some 1, some 10⟩], none, false⟩

/-- A response in EUR, mismatching the USD checkout currency, with a
line matching the SKU ABC. -/
def mismatchResponse : TaxesData :=
  ⟨some "EUR", some [⟨some "ABC", some 1, some 10⟩], none, false⟩

/-- An address with a country code outside the supported table. -/
def badAddr : Address := ⟨"9 High St", "", "Nowhere", "", "XX", "00000"⟩

def badCountryCheckout : Checkout :=
  ⟨⟨"t2"⟩, "USD", "x@example.com", some badAddr, none, [sampleLine],
   ⟨2020, 1, 1⟩⟩

/-! ### Helper lemmas -/

/-- Scanning response lines none of which matches the SKU falls through
to the base total. -/
theorem applyResponseLines_of_no_match (cur : Option String) (sku : String)
    (base : TaxedMoney) (ls : List TaxLine)
    (h : ∀ l ∈ ls, l.itemCode ≠ some sku) :
    applyResponseLines cur sku base ls = .ok base := by
  induction ls with
  | nil => rfl
  | cons l rest ih =>
    have hl : ¬l.itemCode = some sku := h l (List.mem_cons_self _ _)
    simp only [applyResponseLines, if_neg hl]
    exact ih fun x hx => h x (List.mem_cons_of_mem _ hx)

/-- A successful build from a checkout carries the checkout token's
string form as its code and the build-time date as its date. -/
theorem build_ok_fields (site : SiteSettings) (today : Date)
    (checkout : Checkout) (cfg : ConfigObj) (ttype : String)
    (discounts : List DiscountInfo) (r : TransactionRequest)
    (h : generate_request_data_from_checkout site today checkout cfg none
      ttype discounts = .ok r) :
    r.createTransactionModel.code = checkout.token.str ∧
    r.createTransactionModel.date = dateStr today := by
  cases hls : get_checkout_lines_data site checkout discounts with
  | error e =>
    simp only [generate_request_data_from_checkout, hls] at h
    cases h
  | ok ls =>
    simp only [generate_request_data_from_checkout, hls] at h
    cases cfg with
    | plugin c =>
      simp only [generate_request_data, ConfigObj.company_name] at h
      cases h
    | excise c =>
      simp only [generate_request_data, ConfigObj.company_name,
        ConfigObj.autocommit, Except.ok.injEq] at h
      subst h
      exact ⟨rfl, rfl⟩

/-- With an excise-typed config, once the checkout lines build, the
request builds, and get_checkout_tax_data falls off the end of its body
and returns None. -/
theorem get_checkout_tax_data_excise (site : SiteSettings) (today : Date)
    (checkout : Checkout) (discounts : List DiscountInfo)
    (ecfg : ExciseAvataxConfiguration) (ls : List TransactionLine)
    (hls : get_checkout_lines_data site checkout discounts = .ok ls) :
    get_checkout_tax_data site today checkout discounts
      (ConfigObj.excise ecfg) = .ok none := by
  simp only [get_checkout_tax_data, generate_request_data_from_checkout, hls,
    generate_request_data, ConfigObj.company_name, ConfigObj.autocommit]

/-- With the plugin's own config, the request dict literal accesses
config.company_name, which the plugin dataclass does not have, so the
tax-data step raises AttributeError. -/
theorem get_checkout_tax_data_plugin (site : SiteSettings) (today : Date)
    (checkout : Checkout) (discounts : List DiscountInfo)
    (c : PluginAvataxConfiguration) (ls : List TransactionLine)
    (hls : get_checkout_lines_data site checkout discounts = .ok ls) :
    get_checkout_tax_data site today checkout discounts
      (ConfigObj.plugin c) = .error .attributeError := by
  simp only [get_checkout_tax_data, generate_request_data_from_checkout, hls,
    generate_request_data, ConfigObj.company_name]

/-- No execution path of calculate_checkout_line_total performs a
tax-service network call: the trace is always empty. -/
theorem calculate_trace_nil (site : SiteSettings) (today : Date)
    (validate : Checkout → List CheckoutLine → Bool)
    (self_config : PluginAvataxConfiguration)
    (checkout : Checkout) (checkout_line : CheckoutLine)
    (variant : ProductVariant) (product : Product)
    (collections : List Collection) (address : Option Address)
    (channel : Channel) (channel_listing : ChannelListing)
    (discounts : List DiscountInfo) (previous_value : TaxedMoney) :
    (calculate_checkout_line_total site today validate self_config checkout
      checkout_line variant product collections address channel
      channel_listing discounts previous_value).2 = [] := by
  cases h1 : checkout_line.variant.product.charge_taxes with
  | false => simp [calculate_checkout_line_total, h1]
  | true =>
    cases h2 : validate checkout [checkout_line] with
    | false => simp [calculate_checkout_line_total, h1, h2]
    | true =>
      cases h3 : get_checkout_tax_data site today checkout discounts
          (ConfigObj.plugin self_config) with
      | error e => simp [calculate_checkout_line_total, h1, h2, h3]
      | ok td => simp [calculate_checkout_line_total, h1, h2, h3]

/-- Every line built for a checkout shipping to address a carries the
alpha-3 conversion of that address's country code. -/
theorem buildTransactionLines_dest (ti : Bool) (a : Address)
    (ls : List CheckoutLine) (out : List TransactionLine)
    (h : buildTransactionLines ti (some a) ls = .ok out) :
    ∀ tl ∈ out, alpha3 a.country = some tl.DestinationCountryCode := by
  induction ls generalizing out with
  | nil =>
    simp only [buildTransactionLines, Except.ok.injEq] at h
    subst h
    intro tl htl
    cases htl
  | cons l rest ih =>
    simp only [buildTransactionLines] at h
    cases ha : alpha3 a.country with
    | none => rw [ha] at h; cases h
    | some code3 =>
      rw [ha] at h
      cases hr : buildTransactionLines ti (some a) rest with
      | error e => rw [hr] at h; cases h
      | ok tls =>
        rw [hr] at h
        simp only [Except.ok.injEq] at h
        subst h
        intro tl htl
        rcases List.mem_cons.mp htl with h1 | h2
        · subst h1; rfl
        · exact ha ▸ ih tls hr tl h2

/-! ### Claim theorems -/

/-- C1, counterexample: with the plugin's own configuration object (the
one calculate_checkout_line_total actually passes), get_checkout_tax_data
does not return None: it raises AttributeError, and the call that reaches
the tax-data step propagates that error instead of returning
previous_value. -/
theorem c1_counterexample :
    get_checkout_tax_data sampleSite ⟨2021, 5, 6⟩ sampleCheckout []
      (ConfigObj.plugin samplePluginCfg) = .error .attributeError ∧
    (calculate_checkout_line_total sampleSite ⟨2021, 5, 6⟩ (fun _ _ => true)
      samplePluginCfg sampleCheckout sampleLine sampleVariant sampleProduct []
      (some sampleAddr) sampleChannel sampleListing [] samplePrev).1
      = .error .attributeError ∧
    (Except.error PyErr.attributeError : Except PyErr TaxedMoney)
      ≠ .ok samplePrev := by
  refine ⟨by decide, by decide, by decide⟩

/-- C1 (amended): get_checkout_tax_data ends without a return statement,
so whenever the request lines build it returns None under a config of
the excise module's type; but calculate_checkout_line_total passes the
plugin module's config, which lacks the company_name attribute, so for
a taxable line of a validating checkout whose lines build, the tax-data
step raises AttributeError instead of returning previous_value; no
service response is ever applied to a line. -/
theorem c1_amended (site : SiteSettings) (today : Date)
    (validate : Checkout → List CheckoutLine → Bool)
    (self_config : PluginAvataxConfiguration) (checkout : Checkout)
    (checkout_line : CheckoutLine) (variant : ProductVariant)
    (product : Product) (collections : List Collection)
    (address : Option Address) (channel : Channel)
    (channel_listing : ChannelListing) (discounts : List DiscountInfo)
    (previous_value : TaxedMoney) (ecfg : ExciseAvataxConfiguration)
    (ls : List TransactionLine)
    (hls : get_checkout_lines_data site checkout discounts = .ok ls)
    (htax : checkout_line.variant.product.charge_taxes = true)
    (hval : validate checkout [checkout_line] = true) :
    get_checkout_tax_data site today checkout discounts
      (ConfigObj.excise ecfg) = .ok none ∧
    calculate_checkout_line_total site today validate self_config checkout
      checkout_line variant product collections address channel
      channel_listing discounts previous_value
      = (.error .attributeError, []) := by
  refine ⟨get_checkout_tax_data_excise site today checkout discounts ecfg ls hls, ?_⟩
  have hp := get_checkout_tax_data_plugin site today checkout discounts
    self_config ls hls
  simp [calculate_checkout_line_total, htax, hval, hp]

/-- Witness for C1's amended theorem at the sample world. -/
theorem c1_witness :
    get_checkout_lines_data sampleSite sampleCheckout [] = .ok sampleLinesOut ∧
    sampleLine.variant.product.charge_taxes = true ∧
    get_checkout_tax_data sampleSite ⟨2021, 5, 6⟩ sampleCheckout []
      (ConfigObj.excise sampleExciseCfg) = .ok none ∧
    calculate_checkout_line_total sampleSite ⟨2021, 5, 6⟩ (fun _ _ => true)
      samplePluginCfg sampleCheckout sampleLine sampleVariant sampleProduct []
      (some sampleAddr) sampleChannel sampleListing [] samplePrev
      = (.error .attributeError, []) := by
  have h := c1_amended sampleSite ⟨2021, 5, 6⟩ (fun _ _ => true) samplePluginCfg
    sampleCheckout sampleLine sampleVariant sampleProduct [] (some sampleAddr)
    sampleChannel sampleListing [] samplePrev sampleExciseCfg sampleLinesOut
    (by decide) (by decide) rfl
  exact ⟨by decide, by decide, h.1, h.2⟩

/-- C2 (code_bug): the dead response-handling code of
calculate_checkout_line_total implements exactly the claimed arithmetic
(the spec scenario response yields net 10.00 and gross 11.00 USD, with
gross minus net the reported tax), but the shipped endpoint never
reaches it: at the scenario input the tax-data step raises
AttributeError, so the claimed result is never produced. -/
theorem c2_code_behavior :
    handle_taxes_data (some scenarioResponse) "ABC" samplePrev
      = .ok ⟨⟨10, some "USD"⟩, ⟨11, some "USD"⟩⟩ ∧
    (11 : Rat) - 10 = 1 ∧
    calculate_checkout_line_total sampleSite ⟨2021, 5, 6⟩ (fun _ _ => true)
      samplePluginCfg sampleCheckout sampleLine sampleVariant sampleProduct []
      (some sampleAddr) sampleChannel sampleListing [] samplePrev
      = (.error .attributeError, []) := by
  refine ⟨?_, by norm_num, by decide⟩
  have h : handle_taxes_data (some scenarioResponse) "ABC" samplePrev
      = Except.ok ⟨⟨10, some "USD"⟩, ⟨(10 : Rat) + 1, some "USD"⟩⟩ := rfl
  rw [h]
  norm_num

/-- C3 (confirmed): the response handling of
calculate_checkout_line_total, given any truthy or falsy response none
of whose lines matches the SKU, returns the pre-quote base total: no
zeroing and no exception. -/
theorem c3_fallback_no_match (td : TaxesData) (sku : String)
    (base : TaxedMoney)
    (h : ∀ l ∈ td.lines.getD [], l.itemCode ≠ some sku) :
    handle_taxes_data (some td) sku base = .ok base := by
  cases htb : (!td.truthy || td.error.isSome) with
  | true => simp [handle_taxes_data, htb]
  | false =>
    simp [handle_taxes_data, htb,
      applyResponseLines_of_no_match td.currencyCode sku base
        (td.lines.getD []) h]

/-- Witness for C3 at a concrete non-matching response. -/
theorem c3_witness :
    (∀ l ∈ noMatchResponse.lines.getD [], l.itemCode ≠ some "ABC") ∧
    handle_taxes_data (some noMatchResponse) "ABC" samplePrev
      = .ok samplePrev :=
  ⟨by decide, c3_fallback_no_match noMatchResponse "ABC" samplePrev (by decide)⟩

/-- The skip conditions named by the spec, as a predicate on the
previous value: a taxed-money with net distinct from gross, or a range
taxed at both endpoints. -/
def alreadyTaxed : PreviousValue → Prop
  | .taxedMoney t => t.net ≠ t.gross
  | .taxedMoneyRange r =>
      r.start.net ≠ r.start.gross ∧ r.stop.net ≠ r.stop.gross
  | .decimal _ => False

/-- C4, counterexample: with the username missing (a skip condition),
a taxable validating line still proceeds past the skip stage — the
_skip_plugin call is commented out — and the call raises AttributeError
instead of returning the pre-quote value. -/
theorem c4_counterexample :
    pyTruthy (PluginAvataxConfiguration.mk none (some "secret") true none).username
      = false ∧
    (calculate_checkout_line_total sampleSite ⟨2021, 5, 6⟩ (fun _ _ => true)
      ⟨none, some "secret", true, none⟩ sampleCheckout sampleLine sampleVariant
      sampleProduct [] (some sampleAddr) sampleChannel sampleListing []
      samplePrev).1 = .error .attributeError ∧
    (Except.error PyErr.attributeError : Except PyErr TaxedMoney)
      ≠ .ok samplePrev := by
  refine ⟨by decide, by decide, by decide⟩

/-- C4 (amended): _skip_plugin returns true under each of the claimed
conditions (missing username or password, inactive plugin, previous
value already taxed — at both endpoints for a range), and
calculate_checkout_line_total never makes a tax-service network call;
but since the _skip_plugin call is commented out, these conditions do
not cause an early return of the pre-quote value (see the
counterexample). -/
theorem c4_amended (config : PluginAvataxConfiguration) (active : Bool)
    (prev : PreviousValue) (site : SiteSettings) (today : Date)
    (validate : Checkout → List CheckoutLine → Bool) (checkout : Checkout)
    (checkout_line : CheckoutLine) (variant : ProductVariant)
    (product : Product) (collections : List Collection)
    (address : Option Address) (channel : Channel)
    (channel_listing : ChannelListing) (discounts : List DiscountInfo)
    (previous_value : TaxedMoney)
    (h : pyTruthy config.username = false ∨ pyTruthy config.password = false ∨
      active = false ∨ alreadyTaxed prev) :
    _skip_plugin config active prev = true ∧
    (calculate_checkout_line_total site today validate config checkout
      checkout_line variant product collections address channel
      channel_listing discounts previous_value).2 = [] := by
  refine ⟨?_, calculate_trace_nil site today validate config checkout
    checkout_line variant product collections address channel
    channel_listing discounts previous_value⟩
  rcases h with h | h | h | h
  · simp [_skip_plugin, h]
  · simp [_skip_plugin, h]
  · simp [_skip_plugin, h]
  · cases prev with
    | taxedMoney t =>
      simp only [alreadyTaxed] at h
      simp [_skip_plugin, h]
    | taxedMoneyRange r =>
      simp only [alreadyTaxed] at h
      simp [_skip_plugin, h.1, h.2]
    | decimal d => exact absurd h (by simp [alreadyTaxed])

/-- Witness for C4's amended theorem: username missing. -/
theorem c4_witness :
    pyTruthy (none : Option String) = false ∧
    _skip_plugin ⟨none, some "secret", true, none⟩ true
      (.taxedMoney samplePrev) = true ∧
    (calculate_checkout_line_total sampleSite ⟨2021, 5, 6⟩ (fun _ _ => true)
      ⟨none, some "secret", true, none⟩ sampleCheckout sampleLine
      sampleVariant sampleProduct [] (some sampleAddr) sampleChannel
      sampleListing [] samplePrev).2 = [] := by
  have h := c4_amended ⟨none, some "secret", true, none⟩ true
    (.taxedMoney samplePrev) sampleSite ⟨2021, 5, 6⟩ (fun _ _ => true)
    sampleCheckout sampleLine sampleVariant sampleProduct []
    (some sampleAddr) sampleChannel sampleListing [] samplePrev
    (Or.inl (by decide))
  exact ⟨by decide, h.1, h.2⟩

/-- C5, counterexample: a response in EUR against a USD checkout is not
discarded: the matching line is applied and the result is built in the
response's (mismatched) currency instead of falling back to the
pre-quote value. -/
theorem c5_counterexample :
    mismatchResponse.currencyCode ≠ some "USD" ∧
    samplePrev.net.currency = some "USD" ∧
    handle_taxes_data (some mismatchResponse) "ABC" samplePrev
      = .ok ⟨⟨10, some "EUR"⟩, ⟨11, some "EUR"⟩⟩ ∧
    handle_taxes_data (some mismatchResponse) "ABC" samplePrev
      ≠ .ok samplePrev := by
  have h : handle_taxes_data (some mismatchResponse) "ABC" samplePrev
      = Except.ok ⟨⟨10, some "EUR"⟩, ⟨(10 : Rat) + 1, some "EUR"⟩⟩ := rfl
  have h11 : (10 : Rat) + 1 = 11 := by norm_num
  refine ⟨by decide, by decide, ?_, ?_⟩
  · rw [h, h11]
  · rw [h, h11]; decide

/-- C5 (amended): the response-processing code performs no currency
comparison at all: every successful scan result is either the fallback
base total or a value built in the response's own currencyCode, even
when that code differs from the checkout currency. -/
theorem c5_amended (cur : Option String) (sku : String) (base : TaxedMoney) :
    ∀ (ls : List TaxLine) (r : TaxedMoney),
      applyResponseLines cur sku base ls = .ok r →
      r = base ∨ (r.net.currency = cur ∧ r.gross.currency = cur) := by
  intro ls
  induction ls with
  | nil =>
    intro r h
    simp only [applyResponseLines, Except.ok.injEq] at h
    exact Or.inl h.symm
  | cons l rest ih =>
    intro r h
    by_cases hm : l.itemCode = some sku
    · simp only [applyResponseLines, if_pos hm] at h
      cases hl : l.lineAmount with
      | none => rw [hl] at h; cases h
      | some amt =>
        rw [hl] at h
        simp only [Except.ok.injEq] at h
        subst h
        exact Or.inr ⟨rfl, rfl⟩
    · simp only [applyResponseLines, if_neg hm] at h
      exact ih r h

/-- Witness for C5's amended theorem at the mismatched-currency
response. -/
theorem c5_witness :
    (⟨⟨10, some "EUR"⟩, ⟨11, some "EUR"⟩⟩ : TaxedMoney) = samplePrev ∨
    ((⟨⟨10, some "EUR"⟩, ⟨11, some "EUR"⟩⟩ : TaxedMoney).net.currency
        = some "EUR" ∧
      (⟨⟨10, some "EUR"⟩, ⟨11, some "EUR"⟩⟩ : TaxedMoney).gross.currency
        = some "EUR") :=
  c5_amended (some "EUR") "ABC" samplePrev [⟨some "ABC", some 1, some 10⟩]
    ⟨⟨10, some "EUR"⟩, ⟨11, some "EUR"⟩⟩ (by
      have h : applyResponseLines (some "EUR") "ABC" samplePrev
          [⟨some "ABC", some 1, some 10⟩]
          = Except.ok ⟨⟨10, some "EUR"⟩, ⟨(10 : Rat) + 1, some "EUR"⟩⟩ := rfl
      rw [h]
      norm_num)

/-- C6 (confirmed): a line whose product has charge_taxes false returns
the pre-quote value immediately, and no tax-service network call is
made. -/
theorem c6_nontaxable (site : SiteSettings) (today : Date)
    (validate : Checkout → List CheckoutLine → Bool)
    (self_config : PluginAvataxConfiguration) (checkout : Checkout)
    (checkout_line : CheckoutLine) (variant : ProductVariant)
    (product : Product) (collections : List Collection)
    (address : Option Address) (channel : Channel)
    (channel_listing : ChannelListing) (discounts : List DiscountInfo)
    (previous_value : TaxedMoney)
    (h : checkout_line.variant.product.charge_taxes = false) :
    calculate_checkout_line_total site today validate self_config checkout
      checkout_line variant product collections address channel
      channel_listing discounts previous_value = (.ok previous_value, []) := by
  simp [calculate_checkout_line_total, h]

/-- Witness for C6 at a concrete non-taxable line. -/
theorem c6_witness :
    (CheckoutLine.mk 1 1 ⟨"ABC", ⟨false⟩, sampleListing⟩).variant.product.charge_taxes
      = false ∧
    calculate_checkout_line_total sampleSite ⟨2021, 5, 6⟩ (fun _ _ => true)
      samplePluginCfg sampleCheckout ⟨1, 1, ⟨"ABC", ⟨false⟩, sampleListing⟩⟩
      sampleVariant sampleProduct [] (some sampleAddr) sampleChannel
      sampleListing [] samplePrev = (.ok samplePrev, []) :=
  ⟨by decide, c6_nontaxable sampleSite ⟨2021, 5, 6⟩ (fun _ _ => true)
    samplePluginCfg sampleCheckout ⟨1, 1, ⟨"ABC", ⟨false⟩, sampleListing⟩⟩
    sampleVariant sampleProduct [] (some sampleAddr) sampleChannel
    sampleListing [] samplePrev (by decide)⟩

/-- C7 (code_bug): every call of api_post_request raises NameError past
its boundary while evaluating the undefined TIMEOUT global, before any
POST is attempted, so it never returns the empty mapping; the
except-handler fallbacks for transport and decode failures are dead
code, though the downstream taxes_data handling would resolve an empty
(falsy) taxes_data to the pre-quote value unchanged. -/
theorem c7_name_error :
    TIMEOUT = .error .nameError ∧
    (∀ (α : Type) (url : String) (data : α)
        (cfg : ExciseAvataxConfiguration) (outcome : HttpOutcome TaxesData),
      api_post_request url data cfg outcome = (.error .nameError, [])) ∧
    (∀ (sku : String) (base : TaxedMoney),
      handle_taxes_data (some emptyDict) sku base = .ok base) :=
  ⟨rfl, fun _ _ _ _ _ => rfl, fun _ _ => rfl⟩

/-- C8 (confirmed): two successful builds from the same checkout
snapshot with no explicit transaction token, at any two build times,
both carry the checkout token's canonical string form as the request
code, hence the same invoice number. -/
theorem c8_invoice_number_stable (site : SiteSettings) (t1 t2 : Date)
    (checkout : Checkout) (cfg : ConfigObj) (discounts : List DiscountInfo)
    (ttype : String) (r1 r2 : TransactionRequest)
    (h1 : generate_request_data_from_checkout site t1 checkout cfg none
      ttype discounts = .ok r1)
    (h2 : generate_request_data_from_checkout site t2 checkout cfg none
      ttype discounts = .ok r2) :
    r1.createTransactionModel.code = checkout.token.str ∧
    r2.createTransactionModel.code = checkout.token.str ∧
    r1.createTransactionModel.code = r2.createTransactionModel.code := by
  have a1 := (build_ok_fields site t1 checkout cfg ttype discounts r1 h1).1
  have a2 := (build_ok_fields site t2 checkout cfg ttype discounts r2 h2).1
  exact ⟨a1, a2, a1.trans a2.symm⟩

def emptyShip : ShipAddress := ⟨none, none, none, none, none, none⟩

def sampleShipTo : ShipAddress :=
  ⟨some "1 Main St", some "", some "Springfield", some "IL", some "US",
   some "62701"⟩

/-- The request built from sampleCheckout on 2021-05-06. -/
def reqA : TransactionRequest :=
  ⟨⟨"DEFAULT", TransactionType.ORDER, sampleLinesOut, "8b2a1a07",
    "2021-05-06", 0, ⟨emptyShip, sampleShipTo⟩, false, "USD",
    "customer@example.com"⟩⟩

/-- The request built from sampleCheckout on 2021-05-07. -/
def reqB : TransactionRequest :=
  ⟨⟨"DEFAULT", TransactionType.ORDER, sampleLinesOut, "8b2a1a07",
    "2021-05-07", 0, ⟨emptyShip, sampleShipTo⟩, false, "USD",
    "customer@example.com"⟩⟩

/-- Witness for C8: two builds of the sample checkout on consecutive
days share the invoice number, the token's string form. -/
theorem c8_witness :
    reqA.createTransactionModel.code = sampleCheckout.token.str ∧
    reqB.createTransactionModel.code = sampleCheckout.token.str ∧
    reqA.createTransactionModel.code = reqB.createTransactionModel.code :=
  c8_invoice_number_stable sampleSite ⟨2021, 5, 6⟩ ⟨2021, 5, 7⟩
    sampleCheckout (ConfigObj.excise sampleExciseCfg) []
    TransactionType.ORDER reqA reqB (by decide) (by decide)

/-- The date field of a build result, when the build succeeded. -/
def dateOf : Except PyErr TransactionRequest → Option String
  | .ok r => some r.createTransactionModel.date
  | .error _ => none

/-- C9, counterexample: two builds from the same snapshot (last
modified 2020-01-01) on different wall-clock days carry different date
fields, neither derived from the last-modification timestamp. -/
theorem c9_counterexample :
    dateOf (generate_request_data_from_checkout sampleSite ⟨2021, 5, 6⟩
        sampleCheckout (ConfigObj.excise sampleExciseCfg) none
        TransactionType.ORDER []) = some "2021-05-06" ∧
    dateOf (generate_request_data_from_checkout sampleSite ⟨2021, 5, 7⟩
        sampleCheckout (ConfigObj.excise sampleExciseCfg) none
        TransactionType.ORDER []) = some "2021-05-07" ∧
    ("2021-05-06" : String) ≠ "2021-05-07" ∧
    ("2021-05-06" : String) ≠ dateStr sampleCheckout.last_change := by
  refine ⟨by decide, by decide, by decide, by decide⟩

/-- C9 (amended): the request's date field is the wall-clock date at
build time, str(date.today()); the checkout's last-modification
timestamp is not consulted, so builds on different days from the same
snapshot carry different dates. -/
theorem c9_amended (site : SiteSettings) (today : Date)
    (checkout : Checkout) (cfg : ConfigObj) (ttype : String)
    (discounts : List DiscountInfo) (r : TransactionRequest)
    (h : generate_request_data_from_checkout site today checkout cfg none
      ttype discounts = .ok r) :
    r.createTransactionModel.date = dateStr today :=
  (build_ok_fields site today checkout cfg ttype discounts r h).2

/-- Witness for C9's amended theorem. -/
theorem c9_witness : reqA.createTransactionModel.date = dateStr ⟨2021, 5, 6⟩ :=
  c9_amended sampleSite ⟨2021, 5, 6⟩ sampleCheckout
    (ConfigObj.excise sampleExciseCfg) TransactionType.ORDER [] reqA
    (by decide)

/-- C10 (confirmed, spec-modelled country conversion): the alpha-2 to
alpha-3 mapping is total on the supported codes; every transaction line
built for a checkout carries the alpha-3 conversion of the destination
address's country; and an unsupported country code with a taxable line
makes the build fail with SchemaMappingFailure rather than silently
defaulting. -/
theorem c10_country_mapping :
    (∀ c ∈ supportedAlpha2, (alpha3 c).isSome = true) ∧
    (∀ (site : SiteSettings) (checkout : Checkout)
        (discounts : List DiscountInfo) (a : Address)
        (ls : List TransactionLine),
      checkout.shipping_address = some a →
      get_checkout_lines_data site checkout discounts = .ok ls →
      ∀ tl ∈ ls, alpha3 a.country = some tl.DestinationCountryCode) ∧
    (∀ (site : SiteSettings) (checkout : Checkout)
        (discounts : List DiscountInfo) (a : Address),
      checkout.shipping_address = some a →
      alpha3 a.country = none →
      checkout.lines.filter (fun l => l.variant.product.charge_taxes) ≠ [] →
      get_checkout_lines_data site checkout discounts
        = .error .schemaMappingFailure) := by
  refine ⟨by decide, ?_, ?_⟩
  · intro site checkout discounts a ls hship hok
    unfold get_checkout_lines_data at hok
    rw [hship] at hok
    exact buildTransactionLines_dest site.include_taxes_in_prices a _ ls hok
  · intro site checkout discounts a hship ha hne
    unfold get_checkout_lines_data
    rw [hship]
    cases hf : checkout.lines.filter (fun l => l.variant.product.charge_taxes) with
    | nil => exact absurd hf hne
    | cons l rest => simp [buildTransactionLines, ha]

/-- Witness for C10 at the sample world and at an unsupported country
code. -/
theorem c10_witness :
    (alpha3 "US").isSome = true ∧
    (∀ tl ∈ sampleLinesOut, alpha3 sampleAddr.country
      = some tl.DestinationCountryCode) ∧
    get_checkout_lines_data sampleSite badCountryCheckout []
      = .error .schemaMappingFailure := by
  refine ⟨c10_country_mapping.1 "US" (by decide), ?_, ?_⟩
  · exact c10_country_mapping.2.1 sampleSite sampleCheckout [] sampleAddr
      sampleLinesOut rfl (by decide)
  · exact c10_country_mapping.2.2 sampleSite badCountryCheckout [] badAddr
      rfl (by decide) (by decide)
